import Mathlib

/-
Verification of the rule-based violation-detection engine of the
`dayoungmon` cosmetics-advertising compliance checker.

The development shallowly embeds the core of the repository:
  * `src/core/types.py`              — the `ViolationType` / `SeverityLevel` enums,
  * `src/core/regulation_checker.py` — the `Violation` record, the scan
    (`check_violations`), and the report synthesizer (`generate_report`),
  * `src/data/pattern_db.py`         — the SQLite-backed pattern store,
  * `src/data/pattern_manager.py`    — the manager sitting on top of the store.

Python text is modelled as `List Char`, machine integers as `Nat`/`Int`
(the only integer in play, a match offset, never overflows), dictionaries
in insertion order as association lists, and Python's stable `list.sort`
as a stable insertion sort.
-/

namespace Dayoungmon

/-- The five violation categories of `src/core/types.py` (`class ViolationType(Enum)`).
Constructor order is the Python definition order, which is also the order
`for violation_type in ViolationType` iterates in. -/
inductive ViolationType where
  | MEDICAL_CLAIM
  | EXAGGERATED_EFFECT
  | SAFETY_MISREPRESENTATION
  | SUPERLATIVE_EXPRESSION
  | COMPARATIVE_AD_VIOLATION
deriving DecidableEq

/-- The three severity levels of `src/core/types.py` (`class SeverityLevel(Enum)`). -/
inductive SeverityLevel where
  | HIGH
  | MEDIUM
  | LOW
deriving DecidableEq

/-- Python `ViolationType.<member>.name` — the identifier string of the enum member. -/
def ViolationType.name : ViolationType → String
  | .MEDICAL_CLAIM => "MEDICAL_CLAIM"
  | .EXAGGERATED_EFFECT => "EXAGGERATED_EFFECT"
  | .SAFETY_MISREPRESENTATION => "SAFETY_MISREPRESENTATION"
  | .SUPERLATIVE_EXPRESSION => "SUPERLATIVE_EXPRESSION"
  | .COMPARATIVE_AD_VIOLATION => "COMPARATIVE_AD_VIOLATION"

/-- Python `ViolationType.<member>.value` — the Korean display label. -/
def ViolationType.label : ViolationType → String
  | .MEDICAL_CLAIM => "의약품적 표현"
  | .EXAGGERATED_EFFECT => "효능 과장"
  | .SAFETY_MISREPRESENTATION => "안전성 허위"
  | .SUPERLATIVE_EXPRESSION => "최상급 표현"
  | .COMPARATIVE_AD_VIOLATION => "비교광고 위반"

/-- Python `SeverityLevel.<member>.name`. -/
def SeverityLevel.name : SeverityLevel → String
  | .HIGH => "HIGH"
  | .MEDIUM => "MEDIUM"
  | .LOW => "LOW"

/-- Python `SeverityLevel.<member>.value` — the Korean display label. -/
def SeverityLevel.label : SeverityLevel → String
  | .HIGH => "높음"
  | .MEDIUM => "중간"
  | .LOW => "낮음"

/-- The `Violation` dataclass of `regulation_checker.py` (lines 7–15).
`position` is `Int` because the dataclass default `-1` marks "position unknown". -/
structure Violation where
  text : List Char
  violation_type : ViolationType
  severity : SeverityLevel
  legal_basis : String
  suggestion : String
  position : Int := -1
deriving DecidableEq

/-! ### A stable insertion sort

Python's `list.sort` is a stable sort.  `check_violations` sorts with
`key=lambda x: x.position` and `get_active_patterns` relies on SQLite
`ORDER BY`; both are modelled with the stable insertion sort below
(structurally recursive, so concrete runs reduce inside `decide`). -/

/-- Insert `x` into `l` in front of the first element `y` with `le x y`. -/
def insertLe (le : α → α → Bool) (x : α) : List α → List α
  | [] => [x]
  | y :: ys => if le x y then x :: y :: ys else y :: insertLe le x ys

/-- Stable insertion sort with respect to the boolean comparison `le`. -/
def insSort (le : α → α → Bool) : List α → List α
  | [] => []
  | x :: xs => insertLe le x (insSort le xs)

/-- The comparison used by `unique_violations.sort(key=lambda x: x.position)`. -/
def posLe (a b : Violation) : Bool := decide (a.position ≤ b.position)

/-- The position-sorting step of `check_violations` (line 190):
Python's stable `list.sort` with key `position`. -/
def sortViolations (l : List Violation) : List Violation := insSort posLe l

/-! ### The regex engine

`check_violations` runs `re.finditer(pattern, text, re.IGNORECASE)` for every
rule.  `Regex` is the abstract syntax of the pattern fragment the catalog
uses (literal characters, character classes such as `\s`, alternation,
concatenation, Kleene star); a `Regex` value stands for the compiled form of
a pattern string.  `matchLens` lists the candidate match lengths at the head
of a string in Python's backtracking priority order (left alternative first,
greedy star); `re`'s engine returns the first candidate.  The functions are
fuel-based so that they are structurally recursive and concrete scans reduce
inside `decide`; the fuel bound is generous enough for every input actually
used, and no theorem below depends on the matcher finding every match. -/

inductive Regex where
  | eps
  | chr (c : Char)
  | cls (cs : List Char)
  | cat (a b : Regex)
  | alt (a b : Regex)
  | star (a : Regex)
deriving DecidableEq

/-- Structural size of a regex, used to compute a sufficient fuel bound. -/
def Regex.size : Regex → Nat
  | .eps => 1
  | .chr _ => 1
  | .cls _ => 1
  | .cat a b => a.size + b.size + 1
  | .alt a b => a.size + b.size + 1
  | .star a => a.size + 1

/-- Candidate match lengths of `r` at the head of `s`, in backtracking
priority order.  `re.IGNORECASE` is modelled by comparing lower-cased
characters.  A star never repeats an empty-width body match, mirroring the
Python engine's refusal to loop on empty matches. -/
def matchLensF : Nat → Regex → List Char → List Nat
  | 0, _, _ => []
  | fuel + 1, r, s =>
    match r with
    | .eps => [0]
    | .chr c =>
      match s with
      | [] => []
      | d :: _ => if d.toLower = c.toLower then [1] else []
    | .cls cs =>
      match s with
      | [] => []
      | d :: _ => if cs.contains d then [1] else []
    | .alt a b => matchLensF fuel a s ++ matchLensF fuel b s
    | .cat a b =>
      (matchLensF fuel a s).flatMap
        (fun n => (matchLensF fuel b (s.drop n)).map (fun m => n + m))
    | .star a =>
      ((matchLensF fuel a s).filter (fun n => decide (0 < n))).flatMap
        (fun n => (matchLensF fuel (.star a) (s.drop n)).map (fun m => n + m))
        ++ [0]

/-- Match lengths with a fuel bound sufficient for the whole search. -/
def matchLens (r : Regex) (s : List Char) : List Nat :=
  matchLensF ((s.length + 2) * (r.size + 2)) r s

/-- The length of the match `re`'s backtracking engine reports at the head
of `s`, if any: the first candidate in priority order. -/
def firstMatchLen (r : Regex) (s : List Char) : Option Nat :=
  (matchLens r s).head?

/-- One step of the `re.finditer` scan: positions are tried left to right,
each reported match is consumed (non-overlapping), and an empty-width match
advances the scan position by one. -/
def finditerAux (r : Regex) (t : List Char) : Nat → Nat → List (Nat × Nat)
  | 0, _ => []
  | fuel + 1, i =>
    if i ≤ t.length then
      match firstMatchLen r (t.drop i) with
      | some n => (i, n) :: finditerAux r t fuel (i + max n 1)
      | none => finditerAux r t fuel (i + 1)
    else []

/-- `re.finditer(r, t)` as the list of `(start, length)` pairs of the
reported matches.  The scan position advances by at least one per step and
runs while `i ≤ t.length`, so `t.length + 1` steps of fuel are exact. -/
def finditer (r : Regex) (t : List Char) : List (Nat × Nat) :=
  finditerAux r t (t.length + 1) 0

/-- One entry of a `violation_patterns` pattern list as consumed by
`check_violations` (the dicts built in `_load_violation_patterns` /
`get_patterns_for_checking`), with the pattern in compiled form. -/
structure RulePattern where
  pattern : Regex
  severity : SeverityLevel
  legal_basis : String
  suggestion : String
deriving DecidableEq

/-- The `violation_patterns` mapping `ViolationType -> list of pattern dicts`,
as an association list in Python dict insertion order. -/
def Ruleset := List (ViolationType × List RulePattern)

/-- The `Violation` built for one `re.finditer` match in `check_violations`
(lines 170–177): `match.group()` is the slice of the scanned text between
`match.start()` and `match.end()`. -/
def violationOfMatch (t : List Char) (vt : ViolationType) (pi : RulePattern)
    (m : Nat × Nat) : Violation :=
  { text := (t.drop m.1).take m.2
    violation_type := vt
    severity := pi.severity
    legal_basis := pi.legal_basis
    suggestion := pi.suggestion
    position := (m.1 : Int) }

/-- All candidate violations of one scan, in the order the nested loops of
`check_violations` (lines 164–178) append them. -/
def rawViolations (rules : Ruleset) (t : List Char) : List Violation :=
  rules.flatMap (fun p =>
    p.2.flatMap (fun pi => (finditer pi.pattern t).map (violationOfMatch t p.1 pi)))

/-- The deduplication key of `check_violations` (line 184):
`(violation.text, violation.position, violation.violation_type)`. -/
def vKey (v : Violation) : List Char × Int × ViolationType :=
  (v.text, v.position, v.violation_type)

/-- The first-occurrence deduplication loop of `check_violations`
(lines 181–187), with `seen` the set of keys already kept. -/
def dedupAux (seen : List (List Char × Int × ViolationType)) :
    List Violation → List Violation
  | [] => []
  | v :: vs =>
    if vKey v ∈ seen then dedupAux seen vs
    else v :: dedupAux (vKey v :: seen) vs

/-- `check_violations`' duplicate removal, starting from an empty seen set. -/
def dedupViolations (vs : List Violation) : List Violation := dedupAux [] vs

/-- `RegulationChecker.check_violations` (lines 157–192): empty text short
circuits; otherwise scan every pattern of every category, deduplicate by
`(text, position, category)`, and stable-sort by position. -/
def checkViolations (rules : Ruleset) (t : List Char) : List Violation :=
  if t.isEmpty then []
  else sortViolations (dedupViolations (rawViolations rules t))

/-! Facts about the scan pipeline. -/

/-- The same loop as `dedupAux`, on bare keys. -/
def keyDedupAux (seen : List (List Char × Int × ViolationType)) :
    List (List Char × Int × ViolationType) → List (List Char × Int × ViolationType)
  | [] => []
  | k :: ks =>
    if k ∈ seen then keyDedupAux seen ks
    else k :: keyDedupAux (k :: seen) ks

/-! ### The report synthesizer (`RegulationChecker.generate_report`, lines 194–256) -/

/-- Normalize one Python slice index: a negative index counts from the end,
and indices are clamped to `[0, len]`. -/
def pyIndex (len : Nat) (i : Int) : Nat :=
  if i < 0 then (max 0 ((len : Int) + i)).toNat else min i.toNat len

/-- Python `t[a:b]` for integer indices `a`, `b`. -/
def pySlice (t : List Char) (a b : Int) : List Char :=
  (t.take (pyIndex t.length b)).drop (pyIndex t.length a)

/-- The context window attached to one violation (lines 220–222):
`original_text[max(0, position - 20) : min(len(original_text), position + len(text) + 20)]`.
The code computes this for every violation, whatever its `position`. -/
def contextOf (t : List Char) (v : Violation) : List Char :=
  pySlice t (max 0 (v.position - 20))
    (min (t.length : Int) (v.position + (v.text.length : Int) + 20))

/-- One entry of the report's `violations` list (lines 224–232). -/
structure ReportDetail where
  text : List Char
  vtype : String
  severity : String
  legal_basis : String
  suggestion : String
  context : List Char
  position : Int
deriving DecidableEq

/-- The detail dict built for one violation. -/
def detailOf (t : List Char) (v : Violation) : ReportDetail :=
  { text := v.text
    vtype := v.violation_type.label
    severity := v.severity.label
    legal_basis := v.legal_basis
    suggestion := v.suggestion
    context := contextOf t v
    position := v.position }

/-- The per-severity counts of the report (`severity_count`, lines 206–216). -/
structure SeveritySummary where
  high : Nat
  medium : Nat
  low : Nat
deriving DecidableEq

/-- The report dict.  The early empty-input return (lines 196–203) omits the
`severity_summary` and `violation_types` keys, hence the `Option` fields.
Python's `violation_types` is a `set`, so only its extension is modelled;
the list the code derives from it is in unspecified iteration order. -/
structure Report where
  status : String
  total_violations : Nat
  violations : List ReportDetail
  severity_summary : Option SeveritySummary
  violation_types : Option (Finset ViolationType)
  risk_level : String
  summary : String

/-- `RegulationChecker.generate_report` (lines 194–256). -/
def generateReport (violations : List Violation) (original_text : List Char) : Report :=
  if violations.isEmpty then
    { status := "PASS"
      total_violations := 0
      violations := []
      severity_summary := none
      violation_types := none
      risk_level := "LOW"
      summary := "법규 위반사항이 발견되지 않았습니다." }
  else
    let hc := violations.countP (fun v => decide (v.severity = .HIGH))
    let mc := violations.countP (fun v => decide (v.severity = .MEDIUM))
    let lc := violations.countP (fun v => decide (v.severity = .LOW))
    let risk : String :=
      if hc > 0 then "HIGH"
      else if mc > 2 then "HIGH"
      else if mc > 0 then "MEDIUM"
      else "LOW"
    { status := "VIOLATION_FOUND"
      total_violations := violations.length
      violations := violations.map (detailOf original_text)
      severity_summary := some { high := hc, medium := mc, low := lc }
      violation_types :=
        some (violations.foldl (fun s v => insert v.violation_type s) ∅)
      risk_level := risk
      summary := "총 " ++ toString violations.length ++
        "건의 위반사항이 발견되었습니다. 위험도: " ++ risk }

/-! ### The pattern store (`src/data/pattern_db.py`)

The SQLite table `pattern_rules` is modelled as a list of rows plus the
`AUTOINCREMENT` counter.  `violation_type` and `severity` are persisted as
the enum member *name strings* (`add_pattern` inserts `.name`), and SQLite
`ORDER BY` on a `TEXT` column compares those strings bytewise (`BINARY`
collation) — `lexLt` below.  The `created_at` / `updated_at` timestamp
columns are not modelled; no claim mentions them.

Every read path that converts rows back to `PatternRule` objects goes
through `_row_to_pattern_rule`, which calls `row.get` on `sqlite3.Row` — a
method `sqlite3.Row` does not have — and therefore raises `AttributeError`
on every call.  The read operations are modelled with `Option`: `none` is
that exception (or, for `backup_to_json`, the `False` its handler turns it
into). -/

/-- The `PatternRule` dataclass of `pattern_db.py` (lines 12–25), minus the
timestamp fields. -/
structure PatternRule where
  id : Option Nat := none
  pattern : String := ""
  violation_type : ViolationType := .MEDICAL_CLAIM
  severity : SeverityLevel := .MEDIUM
  legal_basis : String := ""
  suggestion : String := ""
  is_active : Bool := true
  description : String := ""
  category : String := ""
deriving DecidableEq

/-- One persisted row of the `pattern_rules` table. -/
structure DBRow where
  id : Nat
  pattern : String
  violation_type : ViolationType
  severity : SeverityLevel
  legal_basis : String
  suggestion : String
  is_active : Bool
  description : String
  category : String
deriving DecidableEq

/-- The `pattern_rules` table: its rows and the `AUTOINCREMENT` counter. -/
structure PatternDatabase where
  rows : List DBRow
  nextId : Nat
deriving DecidableEq

/-- `PatternDatabase.add_pattern` (lines 69–87): unconditionally INSERT the
rule's fields and return `cursor.lastrowid`.  No validation of any kind is
performed on the way in. -/
def addPattern (db : PatternDatabase) (r : PatternRule) : Nat × PatternDatabase :=
  (db.nextId,
   { rows := db.rows ++
       [{ id := db.nextId
          pattern := r.pattern
          violation_type := r.violation_type
          severity := r.severity
          legal_basis := r.legal_basis
          suggestion := r.suggestion
          is_active := r.is_active
          description := r.description
          category := r.category }]
     nextId := db.nextId + 1 })

/-- Bytewise (SQLite `BINARY` collation) strict order on character lists;
the persisted enum names are ASCII, where this agrees with byte order on
the UTF-8 encoding. -/
def lexLt : List Char → List Char → Bool
  | [], [] => false
  | [], _ :: _ => true
  | _ :: _, [] => false
  | a :: as, b :: bs =>
    if a.toNat < b.toNat then true
    else if b.toNat < a.toNat then false
    else lexLt as bs

/-- `ORDER BY violation_type, severity DESC, id` (lines 114–118), as a
boolean total preorder on rows: ascending on the persisted category name,
*descending on the persisted severity name string* ("MEDIUM" > "LOW" >
"HIGH" bytewise), then ascending id. -/
def rowLe (a b : DBRow) : Bool :=
  if lexLt a.violation_type.name.data b.violation_type.name.data then true
  else if lexLt b.violation_type.name.data a.violation_type.name.data then false
  else if lexLt b.severity.name.data a.severity.name.data then true
  else if lexLt a.severity.name.data b.severity.name.data then false
  else decide (a.id ≤ b.id)

/-- The row filter of `get_active_patterns` (lines 102–120):
`is_active = 1`, optionally `AND violation_type = ?`. -/
def activeFilter (vtq : Option ViolationType) (r : DBRow) : Bool :=
  r.is_active && (match vtq with
    | some vt => decide (r.violation_type = vt)
    | none => true)

/-- `_row_to_pattern_rule` (lines 301–315).  The function reads
`row.get('description', '')` and `row.get('category', '')`, but the rows are
`sqlite3.Row` objects (`conn.row_factory = sqlite3.Row`), which support
indexing and `keys()` but have no `.get` method — so every call raises
`AttributeError` before the `PatternRule` is built.  `none` models that
exception. -/
def rowToPatternRule (_row : DBRow) : Option PatternRule := none

/-- The list comprehension
`[self._row_to_pattern_rule(row) for row in cursor.fetchall()]`: the first
row conversion raises, so the result is the empty list for an empty result
set and the `AttributeError` (`none`) otherwise. -/
def convertRows : List DBRow → Option (List PatternRule)
  | [] => some []
  | r :: rs =>
    match rowToPatternRule r with
    | none => none
    | some p => (convertRows rs).map (fun ps => p :: ps)

/-- The result set of the `get_active_patterns` SQL query (lines 107–118):
the active (optionally type-filtered) rows in
`ORDER BY violation_type, severity DESC, id` order, before Python touches
them. -/
def fetchActiveRows (db : PatternDatabase) (vtq : Option ViolationType) :
    List DBRow :=
  insSort rowLe (db.rows.filter (activeFilter vtq))

/-- `PatternDatabase.get_active_patterns` (lines 102–120): fetch, then
convert each row — which raises (`none`) as soon as there is a row. -/
def getActivePatterns (db : PatternDatabase) (vtq : Option ViolationType) :
    Option (List PatternRule) :=
  convertRows (fetchActiveRows db vtq)

/-- `PatternDatabase.get_all_patterns` (lines 122–131): every row, same
`ORDER BY violation_type, severity DESC, id`, same row conversion and hence
the same `AttributeError` on any non-empty table. -/
def getAllPatterns (db : PatternDatabase) : Option (List PatternRule) :=
  convertRows (insSort rowLe db.rows)

/-- One record of the JSON backup file written by `backup_to_json`
(lines 253–263): the eight persisted fields, the enums as name strings. -/
structure BackupRecord where
  pattern : String
  violation_type : String
  severity : String
  legal_basis : String
  suggestion : String
  is_active : Bool
  description : String
  category : String
deriving DecidableEq

/-- The backup record written for one stored rule. -/
def recordOfRule (p : PatternRule) : BackupRecord :=
  { pattern := p.pattern
    violation_type := p.violation_type.name
    severity := p.severity.name
    legal_basis := p.legal_basis
    suggestion := p.suggestion
    is_active := p.is_active
    description := p.description
    category := p.category }

/-- `PatternDatabase.backup_to_json` (lines 247–271): serialize
`get_all_patterns()` field by field.  `get_all_patterns` raises for any
non-empty table; the surrounding `try` catches it and the method returns
`False` having written nothing — `none` here.  A successful backup file
round-trips the record list verbatim, so it is modelled as the record
list. -/
def backupToJson (db : PatternDatabase) : Option (List BackupRecord) :=
  (getAllPatterns db).map (fun ps => ps.map recordOfRule)

/-- Python `ViolationType[name]`: look an enum member up by name,
`KeyError` (here `none`) when absent. -/
def violationTypeOfName (s : String) : Option ViolationType :=
  if s = "MEDICAL_CLAIM" then some .MEDICAL_CLAIM
  else if s = "EXAGGERATED_EFFECT" then some .EXAGGERATED_EFFECT
  else if s = "SAFETY_MISREPRESENTATION" then some .SAFETY_MISREPRESENTATION
  else if s = "SUPERLATIVE_EXPRESSION" then some .SUPERLATIVE_EXPRESSION
  else if s = "COMPARATIVE_AD_VIOLATION" then some .COMPARATIVE_AD_VIOLATION
  else none

/-- Python `SeverityLevel[name]`. -/
def severityLevelOfName (s : String) : Option SeverityLevel :=
  if s = "HIGH" then some .HIGH
  else if s = "MEDIUM" then some .MEDIUM
  else if s = "LOW" then some .LOW
  else none

/-- The `PatternRule` rebuilt from one backup record in `restore_from_json`
(lines 283–293); fails on an unknown enum name (Python `KeyError`). -/
def ruleOfRecord (rec : BackupRecord) : Option PatternRule :=
  match violationTypeOfName rec.violation_type,
      severityLevelOfName rec.severity with
  | some vt, some sev =>
    some { pattern := rec.pattern
           violation_type := vt
           severity := sev
           legal_basis := rec.legal_basis
           suggestion := rec.suggestion
           is_active := rec.is_active
           description := rec.description
           category := rec.category }
  | _, _ => none

/-- The restore loop of `restore_from_json` (lines 283–294): add the rules
one by one; `none` models the exception path that makes the method return
`False`. -/
def restoreRows (db : PatternDatabase) : List BackupRecord → Option PatternDatabase
  | [] => some db
  | rec :: recs =>
    match ruleOfRecord rec with
    | none => none
    | some pr => restoreRows (addPattern db pr).2 recs

/-- `PatternDatabase.restore_from_json` (lines 273–299): optionally
`DELETE FROM pattern_rules` first, then insert every backup record. -/
def restoreFromJson (db : PatternDatabase) (data : List BackupRecord)
    (clear_existing : Bool) : Option PatternDatabase :=
  restoreRows (if clear_existing then { db with rows := [] } else db) data

/-! ### The pattern manager (`src/data/pattern_manager.py`) and the checker
wiring (`RegulationChecker.__init__` / `add_custom_pattern`) -/

/-- Modelled from the spec: acceptance by Python's `re.compile` (the
standard-library function behind `PatternManager.validate_pattern`, which
is not part of this repository's sources), restricted to the syntax aspect
the claims exercise — group parentheses must balance.  `re.compile("(")`
raises `re.error: missing ), unterminated subpattern`; this checker likewise
rejects `"("`. -/
def parenBalanced : List Char → Int → Bool
  | [], depth => decide (depth = 0)
  | c :: cs, depth =>
    if c = '(' then parenBalanced cs (depth + 1)
    else if c = ')' then (if depth ≤ 0 then false else parenBalanced cs (depth - 1))
    else parenBalanced cs depth

/-- Whether a pattern string compiles as a regular expression (see
`parenBalanced`). -/
def regexCompiles (p : String) : Bool := parenBalanced p.data 0

/-- `PatternManager.validate_pattern` (lines 170–177): `re.compile` inside
a `try`, reported as a valid-flag.  It is a separate operation; nothing in
the add path calls it. -/
def validatePattern (p : String) : Bool := regexCompiles p

/-- `PatternManager.add_custom_pattern` (lines 108–123): build a
`PatternRule` (always `is_active=True`) and hand it straight to
`PatternDatabase.add_pattern`.  The pattern string is persisted as-is,
without any validation. -/
def addCustomPattern (db : PatternDatabase) (pattern : String)
    (vt : ViolationType) (sev : SeverityLevel) (legal_basis suggestion : String)
    (description : String := "") (category : String := "사용자정의") :
    Nat × PatternDatabase :=
  addPattern db
    { pattern := pattern
      violation_type := vt
      severity := sev
      legal_basis := legal_basis
      suggestion := suggestion
      is_active := true
      description := description
      category := category }

/-- One entry of a checking-pattern list in its on-the-wire form: the dicts
of `_load_violation_patterns` (`regulation_checker.py` lines 42–110) and of
`get_patterns_for_checking` (`pattern_manager.py` lines 125–144), with the
pattern still a string. -/
structure PatternEntry where
  pattern : String
  severity : SeverityLevel
  legal_basis : String
  suggestion : String
deriving DecidableEq

/-- The checking-pattern view of one stored rule (`get_patterns_for_checking`,
lines 133–139). -/
def entryOfRule (p : PatternRule) : PatternEntry :=
  { pattern := p.pattern
    severity := p.severity
    legal_basis := p.legal_basis
    suggestion := p.suggestion }

/-- Python `for violation_type in ViolationType`: the members in definition
order. -/
def violationTypeMembers : List ViolationType :=
  [.MEDICAL_CLAIM, .EXAGGERATED_EFFECT, .SAFETY_MISREPRESENTATION,
   .SUPERLATIVE_EXPRESSION, .COMPARATIVE_AD_VIOLATION]

/-- The `for violation_type in ViolationType` loop of
`get_patterns_for_checking`: each step queries the active rules of one type
(`none` propagates that query's `AttributeError`), keeps non-empty entry
lists, and preserves dict insertion order. -/
def checkingLoop (db : PatternDatabase) :
    List ViolationType → Option (List (ViolationType × List PatternEntry))
  | [] => some []
  | vt :: vts =>
    match getActivePatterns db (some vt) with
    | none => none
    | some rs =>
      (checkingLoop db vts).map
        (fun rest => if rs.isEmpty then rest else (vt, rs.map entryOfRule) :: rest)

/-- `PatternManager.get_patterns_for_checking` (lines 125–144): succeeds
only when no violation type has an active rule (returning the empty dict);
as soon as some type has one, the underlying query raises. -/
def getPatternsForChecking (db : PatternDatabase) :
    Option (List (ViolationType × List PatternEntry)) :=
  checkingLoop db violationTypeMembers

/-- The hardcoded catalog of `RegulationChecker._load_violation_patterns`
(lines 42–110); the same data is repeated in
`PatternManager._get_hardcoded_patterns` (lines 39–106). -/
def hardcodedPatterns : List (ViolationType × List PatternEntry) :=
  [(.MEDICAL_CLAIM,
    [{ pattern := "(치료|완치|의학적\\s*효과|병원|의사|처방|진료|임상|약효)"
       severity := .HIGH
       legal_basis := "화장품법 제2조(정의), 약사법 제85조"
       suggestion := "화장품의 기능적 효과로 표현을 변경하세요" },
     { pattern := "(항균|살균|세균\\s*제거|바이러스\\s*차단)"
       severity := .HIGH
       legal_basis := "화장품법 제2조, 의료기기법"
       suggestion := "청결 유지나 세정 효과로 표현을 변경하세요" }]),
   (.EXAGGERATED_EFFECT,
    [{ pattern := "(100%\\s*효과|완벽한|즉시|바로|하루\\s*만에|기적|마법)"
       severity := .HIGH
       legal_basis := "화장품법 제10조(표시·광고의 금지 등)"
       suggestion := "점진적 개선이나 도움을 줄 수 있다는 표현으로 변경하세요" },
     { pattern := "(영구적|평생|절대|무조건|확실히)"
       severity := .MEDIUM
       legal_basis := "표시·광고의 공정화에 관한 법률"
       suggestion := "개인차가 있을 수 있음을 명시하세요" }]),
   (.SAFETY_MISREPRESENTATION,
    [{ pattern := "(부작용\\s*없음|무해한|100%\\s*안전|완전히\\s*안전)"
       severity := .HIGH
       legal_basis := "화장품법 제10조, 소비자기본법"
       suggestion := "테스트를 거쳤다거나 안전성을 고려했다는 표현으로 변경하세요" },
     { pattern := "(알레르기\\s*반응\\s*없음|자극\\s*없음)"
       severity := .MEDIUM
       legal_basis := "화장품법 제10조"
       suggestion := "개인에 따라 반응이 다를 수 있음을 명시하세요" }]),
   (.SUPERLATIVE_EXPRESSION,
    [{ pattern := "(최고|최상|최적|1위|넘버원|NO\\.1|으뜸)"
       severity := .MEDIUM
       legal_basis := "표시·광고의 공정화에 관한 법률 제3조"
       suggestion := "객관적 근거가 있는 경우에만 사용하거나 삭제하세요" },
     { pattern := "(유일한|독보적|독창적|세계\\s*최초)"
       severity := .HIGH
       legal_basis := "표시·광고의 공정화에 관한 법률"
       suggestion := "검증 가능한 사실이 아닌 경우 삭제하세요" }]),
   (.COMPARATIVE_AD_VIOLATION,
    [{ pattern := "(타제품보다|경쟁사보다|다른\\s*브랜드보다|비교\\s*불가)"
       severity := .MEDIUM
       legal_basis := "표시·광고의 공정화에 관한 법률 제6조"
       suggestion := "객관적 근거 자료와 함께 제시하거나 삭제하세요" }])]

/-- `PatternManager.migrate_hardcoded_patterns` (lines 13–37): insert every
hardcoded entry as an active rule with `category="기본"` and a derived
description. -/
def migrateHardcodedPatterns (db : PatternDatabase) : PatternDatabase :=
  hardcodedPatterns.foldl
    (fun acc p =>
      p.2.foldl
        (fun acc2 e =>
          (addPattern acc2
            { pattern := e.pattern
              violation_type := p.1
              severity := e.severity
              legal_basis := e.legal_basis
              suggestion := e.suggestion
              is_active := true
              description := p.1.label ++ " 관련 패턴"
              category := "기본" }).2)
        acc)
    db

/-- How constructing `PatternManager()` went inside
`RegulationChecker.__init__`: `failed` is the "persistence backend
unreachable" case, where the constructor raised. -/
inductive LoadResult where
  | ok (db : PatternDatabase)
  | failed

/-- The state of a `RegulationChecker` (fields set by `__init__`). -/
structure CheckerState where
  use_database : Bool
  pattern_manager : Option PatternDatabase
  violation_patterns : List (ViolationType × List PatternEntry)

/-- `RegulationChecker.__init__` (lines 20–40): with `use_database=True`,
try the pattern manager; seed the store when the first read comes back
empty; any exception inside the `try` — including the `AttributeError` a
non-empty store's `get_patterns_for_checking` raises — falls back to
`use_database=False` with the hardcoded catalog (the already-constructed
manager object is left behind in `self.pattern_manager`). -/
def initChecker (use_database : Bool) (load : LoadResult) : CheckerState :=
  if use_database then
    match load with
    | .ok db =>
      match getPatternsForChecking db with
      | none =>
        { use_database := false
          pattern_manager := some db
          violation_patterns := hardcodedPatterns }
      | some ps =>
        if ps.isEmpty then
          let db' := migrateHardcodedPatterns db
          match getPatternsForChecking db' with
          | none =>
            { use_database := false
              pattern_manager := some db'
              violation_patterns := hardcodedPatterns }
          | some ps' =>
            { use_database := true
              pattern_manager := some db'
              violation_patterns := ps' }
        else
          { use_database := true
            pattern_manager := some db
            violation_patterns := ps }
    | .failed =>
      { use_database := false, pattern_manager := none,
        violation_patterns := hardcodedPatterns }
  else
    { use_database := false, pattern_manager := none,
      violation_patterns := hardcodedPatterns }

/-- `RegulationChecker.add_custom_pattern` (lines 124–141): in database mode
delegate to the manager (the insert itself succeeds), then
`reload_patterns`, whose internal `try` swallows the reload's
`AttributeError` and keeps the stale `violation_patterns`; the call returns
`True`.  Outside database mode it logs a warning and returns `False` with
nothing changed.  (A missing manager in database mode raises inside the
`try` and is likewise reported as `False`.) -/
def checkerAddCustomPattern (st : CheckerState) (pattern : String)
    (vt : ViolationType) (sev : SeverityLevel)
    (legal_basis suggestion : String) (description : String := "") :
    Bool × CheckerState :=
  if st.use_database then
    match st.pattern_manager with
    | some db =>
      let r := addCustomPattern db pattern vt sev legal_basis suggestion description
      (true,
       { use_database := true
         pattern_manager := some r.2
         violation_patterns :=
           match getPatternsForChecking r.2 with
           | some ps => ps
           | none => st.violation_patterns })
    | none => (false, st)
  else (false, st)

/-! ### Claim-side definitions

The definitions in this block restate properties in the words of the
specification, to be compared against the behaviour of the embedded code. -/

/-- The risk-verdict policy in the words of the spec: any High → HIGH;
else Medium count > 2 → HIGH; else Medium count ≥ 1 → MEDIUM; else LOW. -/
def claimRiskLevel (vs : List Violation) : String :=
  if vs.any (fun v => decide (v.severity = SeverityLevel.HIGH)) then "HIGH"
  else if 2 < vs.countP (fun v => decide (v.severity = SeverityLevel.MEDIUM)) then "HIGH"
  else if 1 ≤ vs.countP (fun v => decide (v.severity = SeverityLevel.MEDIUM)) then "MEDIUM"
  else "LOW"

/-- The context window in the words of the spec: the substring of the
original text from `max(0, position - 20)` to
`min(len(text), position + len(matched_text) + 20)`. -/
def specContextWindow (t : List Char) (pos : Int) (mlen : Nat) : List Char :=
  (t.take ((min (t.length : Int) (pos + (mlen : Int) + 20)).toNat)).drop
    ((max 0 (pos - 20)).toNat)

/-! ### Concrete inputs used by witnesses and counterexamples -/

/-- A compiled rule whose pattern is the literal regex `ab`. -/
def wRulePattern : RulePattern :=
  { pattern := .cat (.chr 'a') (.chr 'b')
    severity := .HIGH
    legal_basis := ""
    suggestion := "" }

/-- A ruleset with two identical rules in one category and the same rule in
a second category. -/
def wRuleset : Ruleset :=
  [(.MEDICAL_CLAIM, [wRulePattern, wRulePattern]),
   (.EXAGGERATED_EFFECT, [wRulePattern])]

/-- The violation the scan of `"ab"` under `wRuleset` reports first. -/
def wViolation : Violation :=
  { text := ['a', 'b']
    violation_type := .MEDICAL_CLAIM
    severity := .HIGH
    legal_basis := ""
    suggestion := ""
    position := 0 }

/-- A violation whose position is the "unknown" sentinel `-1`. -/
def wNegViolation : Violation :=
  { text := "완치".data
    violation_type := .MEDICAL_CLAIM
    severity := .HIGH
    legal_basis := ""
    suggestion := ""
    position := -1 }

/-- A 28-character original text for the context-window counterexample. -/
def wText : List Char := "가나다라마바사아자차카타파하가나다라마바사아자차카타파하".data

/-- The row `add_custom_pattern` inserts: the given fields, active, under
the fresh id. -/
def addedRow (db : PatternDatabase) (pattern : String) (vt : ViolationType)
    (sev : SeverityLevel) (lb sg ds ct : String) : DBRow :=
  { id := db.nextId
    pattern := pattern
    violation_type := vt
    severity := sev
    legal_basis := lb
    suggestion := sg
    is_active := true
    description := ds
    category := ct }

/-- An empty pattern store. -/
def emptyPatternDb : PatternDatabase := { rows := [], nextId := 1 }

/-- An active High-severity row. -/
def wRowHigh : DBRow :=
  { id := 1
    pattern := "a"
    violation_type := .MEDICAL_CLAIM
    severity := .HIGH
    legal_basis := ""
    suggestion := ""
    is_active := true
    description := ""
    category := "기본" }

/-- An active Medium-severity row of the same category, with a larger id. -/
def wRowMedium : DBRow := { wRowHigh with id := 2, severity := .MEDIUM }

/-- A store holding one High and one Medium rule of the same category. -/
def wPatternDb : PatternDatabase := { rows := [wRowHigh, wRowMedium], nextId := 3 }

/-! ## Supporting lemmas -/

theorem insertLe_perm (le : α → α → Bool) (x : α) (l : List α) :
    (insertLe le x l).Perm (x :: l) := by
  induction l with
  | nil => exact List.Perm.refl _
  | cons y ys ih =>
    show (if le x y then x :: y :: ys else y :: insertLe le x ys).Perm (x :: y :: ys)
    by_cases h : le x y = true
    · rw [if_pos h]
    · rw [if_neg h]
      exact (ih.cons y).trans (List.Perm.swap x y ys)

theorem mem_insertLe (le : α → α → Bool) (x a : α) (l : List α) :
    a ∈ insertLe le x l ↔ a = x ∨ a ∈ l := by
  rw [(insertLe_perm le x l).mem_iff]
  simp

theorem insSort_perm (le : α → α → Bool) (l : List α) : (insSort le l).Perm l := by
  induction l with
  | nil => exact List.Perm.refl _
  | cons x xs ih =>
    exact (insertLe_perm le x (insSort le xs)).trans (ih.cons x)

theorem pairwise_insertLe (le : α → α → Bool)
    (htot : ∀ a b, le a b = true ∨ le b a = true)
    (htrans : ∀ a b c, le a b = true → le b c = true → le a c = true)
    (x : α) (l : List α) (hl : l.Pairwise (fun a b => le a b = true)) :
    (insertLe le x l).Pairwise (fun a b => le a b = true) := by
  induction l with
  | nil =>
    show ([x] : List α).Pairwise (fun a b => le a b = true)
    simp
  | cons y ys ih =>
    rcases List.pairwise_cons.mp hl with ⟨hy, hys⟩
    show (if le x y then x :: y :: ys else y :: insertLe le x ys).Pairwise
      (fun a b => le a b = true)
    by_cases h : le x y = true
    · rw [if_pos h]
      refine List.pairwise_cons.mpr ⟨?_, hl⟩
      intro z hz
      rcases List.mem_cons.mp hz with rfl | hz
      · exact h
      · exact htrans x y z h (hy z hz)
    · rw [if_neg h]
      refine List.pairwise_cons.mpr ⟨?_, ih hys⟩
      intro z hz
      rcases (mem_insertLe le x z ys).mp hz with hzx | hz
      · rcases htot x y with hxy | hyx
        · exact absurd hxy h
        · rw [hzx]
          exact hyx
      · exact hy z hz

theorem pairwise_insSort (le : α → α → Bool)
    (htot : ∀ a b, le a b = true ∨ le b a = true)
    (htrans : ∀ a b c, le a b = true → le b c = true → le a c = true)
    (l : List α) : (insSort le l).Pairwise (fun a b => le a b = true) := by
  induction l with
  | nil => simp [insSort]
  | cons x xs ih => exact pairwise_insertLe le htot htrans x (insSort le xs) ih

theorem filter_insertLe_pos (x : Violation) (l : List Violation) (p : Int) :
    (insertLe posLe x l).filter (fun v => decide (v.position = p)) =
      ((x :: l).filter (fun v => decide (v.position = p))) := by
  induction l with
  | nil => rfl
  | cons y ys ih =>
    show (if posLe x y then x :: y :: ys else y :: insertLe posLe x ys).filter
        (fun v => decide (v.position = p)) = _
    by_cases h : posLe x y = true
    · rw [if_pos h]
    · have hlt : y.position < x.position := by
        simp only [posLe, decide_eq_true_eq] at h
        omega
      rw [if_neg h]
      simp only [List.filter_cons, decide_eq_true_eq] at *
      by_cases hx : x.position = p
      · have hy : ¬ y.position = p := by omega
        rw [if_neg hy, ih]
        simp [hx, hy]
      · by_cases hy : y.position = p
        · rw [if_pos hy, ih]
          simp [hx, hy]
        · rw [if_neg hy, ih]
          simp [hx, hy]

theorem filter_sortViolations_pos (l : List Violation) (p : Int) :
    (sortViolations l).filter (fun v => decide (v.position = p)) =
      l.filter (fun v => decide (v.position = p)) := by
  induction l with
  | nil => rfl
  | cons x xs ih =>
    have ih' : (insSort posLe xs).filter (fun v => decide (v.position = p)) =
        xs.filter (fun v => decide (v.position = p)) := ih
    show (insertLe posLe x (insSort posLe xs)).filter (fun v => decide (v.position = p)) = _
    rw [filter_insertLe_pos, List.filter_cons, List.filter_cons, ih']

theorem posLe_total : ∀ a b : Violation, posLe a b = true ∨ posLe b a = true := by
  intro a b
  simp only [posLe, decide_eq_true_eq]
  omega

theorem posLe_trans : ∀ a b c : Violation,
    posLe a b = true → posLe b c = true → posLe a c = true := by
  intro a b c
  simp only [posLe, decide_eq_true_eq]
  omega

theorem sortViolations_pairwise (l : List Violation) :
    (sortViolations l).Pairwise (fun a b => a.position ≤ b.position) := by
  have := pairwise_insSort posLe posLe_total posLe_trans l
  exact this.imp (by intro a b h; simpa [posLe] using h)

theorem sortViolations_perm (l : List Violation) : (sortViolations l).Perm l :=
  insSort_perm posLe l

theorem map_vKey_dedupAux (seen : List (List Char × Int × ViolationType))
    (vs : List Violation) :
    (dedupAux seen vs).map vKey = keyDedupAux seen (vs.map vKey) := by
  induction vs generalizing seen with
  | nil => rfl
  | cons v vs ih =>
    show (if vKey v ∈ seen then dedupAux seen vs
      else v :: dedupAux (vKey v :: seen) vs).map vKey = _
    by_cases h : vKey v ∈ seen
    · rw [if_pos h]
      show _ = keyDedupAux seen (vKey v :: vs.map vKey)
      unfold keyDedupAux
      rw [if_pos h]
      exact ih seen
    · rw [if_neg h]
      show vKey v :: (dedupAux (vKey v :: seen) vs).map vKey =
        keyDedupAux seen (vKey v :: vs.map vKey)
      unfold keyDedupAux
      rw [if_neg h, ih]

theorem keyDedupAux_nodup (seen ks : List (List Char × Int × ViolationType)) :
    (keyDedupAux seen ks).Nodup ∧ ∀ k ∈ keyDedupAux seen ks, k ∉ seen := by
  induction ks generalizing seen with
  | nil => exact ⟨List.nodup_nil, by intro k hk; cases hk⟩
  | cons k ks ih =>
    show (if k ∈ seen then keyDedupAux seen ks
      else k :: keyDedupAux (k :: seen) ks).Nodup ∧ _
    by_cases h : k ∈ seen
    · rw [if_pos h]
      constructor
      · exact (ih seen).1
      · intro a ha
        simp only [keyDedupAux, if_pos h] at ha
        exact (ih seen).2 a ha
    · rw [if_neg h]
      rcases ih (k :: seen) with ⟨hnd, hns⟩
      constructor
      · refine List.nodup_cons.mpr ⟨?_, hnd⟩
        intro hk
        exact hns k hk (List.mem_cons_self k seen)
      · intro a ha
        simp only [keyDedupAux, if_neg h] at ha
        rcases List.mem_cons.mp ha with rfl | ha
        · exact h
        · intro hseen
          exact hns a ha (List.mem_cons_of_mem k hseen)

theorem mem_keyDedupAux (seen ks : List (List Char × Int × ViolationType)) :
    ∀ k, k ∈ keyDedupAux seen ks ↔ k ∈ ks ∧ k ∉ seen := by
  induction ks generalizing seen with
  | nil => intro k; simp [keyDedupAux]
  | cons a ks ih =>
    intro k
    show k ∈ (if a ∈ seen then keyDedupAux seen ks
      else a :: keyDedupAux (a :: seen) ks) ↔ _
    by_cases h : a ∈ seen
    · rw [if_pos h, ih]
      constructor
      · rintro ⟨hk, hs⟩
        exact ⟨List.mem_cons_of_mem a hk, hs⟩
      · rintro ⟨hk, hs⟩
        rcases List.mem_cons.mp hk with rfl | hk
        · exact absurd h hs
        · exact ⟨hk, hs⟩
    · rw [if_neg h]
      constructor
      · intro hk
        rcases List.mem_cons.mp hk with rfl | hk
        · exact ⟨List.mem_cons_self _ _, h⟩
        · rcases (ih (a :: seen) k).mp hk with ⟨h1, h2⟩
          refine ⟨List.mem_cons_of_mem a h1, ?_⟩
          intro hs
          exact h2 (List.mem_cons_of_mem a hs)
      · rintro ⟨hk, hs⟩
        rcases List.mem_cons.mp hk with rfl | hk
        · exact List.mem_cons_self _ _
        · by_cases hka : k = a
          · rw [hka]
            exact List.mem_cons_self _ _
          · refine List.mem_cons_of_mem a ((ih (a :: seen) k).mpr ⟨hk, ?_⟩)
            intro hmem
            rcases List.mem_cons.mp hmem with h1 | h1
            · exact hka h1
            · exact hs h1

theorem mem_dedupAux (seen : List (List Char × Int × ViolationType))
    (vs : List Violation) : ∀ v ∈ dedupAux seen vs, v ∈ vs := by
  induction vs generalizing seen with
  | nil => intro v hv; cases hv
  | cons w ws ih =>
    intro v hv
    by_cases h : vKey w ∈ seen
    · simp only [dedupAux, if_pos h] at hv
      exact List.mem_cons_of_mem w (ih seen v hv)
    · simp only [dedupAux, if_neg h] at hv
      rcases List.mem_cons.mp hv with rfl | hv
      · exact List.mem_cons_self _ _
      · exact List.mem_cons_of_mem w (ih _ v hv)

theorem take_take_length (l : List α) (n : Nat) :
    l.take ((l.take n).length) = l.take n := by
  rw [List.length_take]
  rcases Nat.le_total n l.length with h | h
  · rw [Nat.min_eq_left h]
  · rw [Nat.min_eq_right h, List.take_length, List.take_of_length_le h]

theorem mem_rawViolations (rules : Ruleset) (t : List Char) (v : Violation)
    (hv : v ∈ rawViolations rules t) :
    ∃ i n : Nat, v.position = (i : Int) ∧ v.text = (t.drop i).take n := by
  rcases List.mem_flatMap.mp hv with ⟨p, _, hv2⟩
  rcases List.mem_flatMap.mp hv2 with ⟨q, _, hv3⟩
  rcases List.mem_map.mp hv3 with ⟨m, _, rfl⟩
  exact ⟨m.1, m.2, rfl, rfl⟩

/-! ## The claims -/

/-- C1: for every violation list handed to `generate_report`, the report's
`risk_level` is HIGH when any High-severity violation is present, else HIGH
when more than two Medium-severity violations are present, else MEDIUM when
at least one Medium is present, else LOW. -/
theorem C1_risk_level_policy (vs : List Violation) (t : List Char) :
    (generateReport vs t).risk_level = claimRiskLevel vs := by
  cases vs with
  | nil => rfl
  | cons v vs' =>
    show (if 0 < (v :: vs').countP (fun w => decide (w.severity = SeverityLevel.HIGH))
        then "HIGH"
      else if 2 < (v :: vs').countP (fun w => decide (w.severity = SeverityLevel.MEDIUM))
        then "HIGH"
      else if 0 < (v :: vs').countP (fun w => decide (w.severity = SeverityLevel.MEDIUM))
        then "MEDIUM"
      else "LOW") = claimRiskLevel (v :: vs')
    unfold claimRiskLevel
    by_cases h1 : (v :: vs').any (fun w => decide (w.severity = SeverityLevel.HIGH)) = true
    · have hc : 0 < (v :: vs').countP (fun w => decide (w.severity = SeverityLevel.HIGH)) :=
        List.countP_pos_iff.mpr (List.any_eq_true.mp h1)
      rw [if_pos hc, if_pos h1]
    · have hc : ¬ 0 < (v :: vs').countP (fun w => decide (w.severity = SeverityLevel.HIGH)) :=
        fun hpos => h1 (List.any_eq_true.mpr (List.countP_pos_iff.mp hpos))
      rw [if_neg hc, if_neg h1]
      rfl

/-- C3: every scan output is sorted non-decreasingly by position; in the
sorting step any position `-1` entry ends up before every positioned entry,
and the sort is stable — violations of equal position keep their relative
order (each equal-position fiber of the output equals that of the input). -/
theorem C3_scan_ordering_and_stability :
    (∀ (rules : Ruleset) (t : List Char),
      (checkViolations rules t).Pairwise (fun a b => a.position ≤ b.position)) ∧
    (∀ l : List Violation,
      ((sortViolations l).Pairwise (fun a b => a.position ≤ b.position)) ∧
      ((sortViolations l).Pairwise (fun a b => 0 ≤ a.position → b.position ≠ -1)) ∧
      (∀ p : Int, (sortViolations l).filter (fun v => decide (v.position = p)) =
        l.filter (fun v => decide (v.position = p)))) := by
  constructor
  · intro rules t
    unfold checkViolations
    by_cases he : t.isEmpty
    · rw [if_pos he]
      exact List.Pairwise.nil
    · rw [if_neg he]
      exact sortViolations_pairwise _
  · intro l
    refine ⟨sortViolations_pairwise l, ?_, filter_sortViolations_pos l⟩
    refine (sortViolations_pairwise l).imp ?_
    intro a b hab h0
    omega

/-- C2: the scan keeps exactly one violation per
`(matched_text, position, category)` triple: the output's key list is
duplicate-free, it is exactly the first-occurrence deduplication of the raw
candidate keys, and a key occurs in the output iff some raw candidate
produced it (so a second category matching the same text and offset is
retained as its own violation). -/
theorem C2_dedup_triple (rules : Ruleset) (t : List Char) (h : t ≠ []) :
    ((checkViolations rules t).map vKey).Nodup ∧
    ((checkViolations rules t).map vKey).Perm
      (keyDedupAux [] ((rawViolations rules t).map vKey)) ∧
    (∀ k, k ∈ (checkViolations rules t).map vKey ↔
      k ∈ (rawViolations rules t).map vKey) := by
  have he : t.isEmpty = false := by
    cases t
    · exact absurd rfl h
    · rfl
  have hstep : checkViolations rules t =
      sortViolations (dedupViolations (rawViolations rules t)) := by
    unfold checkViolations
    rw [he]
    simp
  have hperm : ((checkViolations rules t).map vKey).Perm
      (keyDedupAux [] ((rawViolations rules t).map vKey)) := by
    rw [hstep]
    unfold dedupViolations
    have h2 := (sortViolations_perm (dedupAux [] (rawViolations rules t))).map vKey
    rw [map_vKey_dedupAux] at h2
    exact h2
  refine ⟨hperm.nodup_iff.mpr (keyDedupAux_nodup [] _).1, hperm, ?_⟩
  intro k
  rw [hperm.mem_iff, mem_keyDedupAux]
  simp

/-- Witness for C2 at a concrete ruleset and text: two identical rules in
one category and the same rule in a second category scanning `"ab"`. -/
theorem C2_dedup_triple_witness :
    (("ab".data : List Char) ≠ []) ∧
    ((checkViolations wRuleset "ab".data).map vKey).Nodup :=
  ⟨by decide, (C2_dedup_triple wRuleset "ab".data (by decide)).1⟩

/-- C10 (implicit): every violation of a direct scan carries a non-negative
position, and the scanned text really contains the matched text at that
offset. -/
theorem C10_scan_positions_sound (rules : Ruleset) (t : List Char) (v : Violation)
    (hv : v ∈ checkViolations rules t) :
    0 ≤ v.position ∧ (t.drop v.position.toNat).take v.text.length = v.text := by
  unfold checkViolations at hv
  by_cases he : t.isEmpty
  · rw [if_pos he] at hv
    cases hv
  · rw [if_neg he] at hv
    have hv1 : v ∈ dedupViolations (rawViolations rules t) :=
      (sortViolations_perm _).mem_iff.mp hv
    have hv2 : v ∈ rawViolations rules t := mem_dedupAux [] _ v hv1
    rcases mem_rawViolations rules t v hv2 with ⟨i, n, hpos, htext⟩
    constructor
    · rw [hpos]
      exact Int.natCast_nonneg i
    · rw [hpos, htext, Int.toNat_natCast, take_take_length]

/-- Witness for C10 at a concrete scan. -/
theorem C10_scan_positions_sound_witness :
    wViolation ∈ checkViolations wRuleset "ab".data ∧
    (0 ≤ wViolation.position ∧
      ("ab".data.drop wViolation.position.toNat).take wViolation.text.length =
        wViolation.text) :=
  ⟨by decide, C10_scan_positions_sound wRuleset "ab".data wViolation (by decide)⟩

theorem pyIndex_nonneg (len : Nat) (i : Int) (h : 0 ≤ i) :
    pyIndex len i = min i.toNat len := by
  unfold pyIndex
  rw [if_neg (by omega)]

/-- C5 (amended): every report detail's context is the substring of the
original text from `max(0, position - 20)` to
`min(len(text), position + len(matched_text) + 20)` — including for
position `-1`, which the code slices just like any other position instead
of omitting the context. -/
theorem C5_context_window (vs : List Violation) (t : List Char) (v : Violation)
    (hv : v ∈ vs) (hpos : -1 ≤ v.position) :
    detailOf t v ∈ (generateReport vs t).violations ∧
    (detailOf t v).context = specContextWindow t v.position v.text.length := by
  constructor
  · have hne : vs.isEmpty = false := by
      cases vs
      · cases hv
      · rfl
    have hviol : (generateReport vs t).violations = vs.map (detailOf t) := by
      unfold generateReport
      rw [hne]
      simp
    rw [hviol]
    exact List.mem_map_of_mem (detailOf t) hv
  · show pySlice t (max 0 (v.position - 20))
      (min (t.length : Int) (v.position + (v.text.length : Int) + 20)) = _
    have ha0 : (0 : Int) ≤ max 0 (v.position - 20) := le_max_left _ _
    have hb0 : (0 : Int) ≤
        min (t.length : Int) (v.position + (v.text.length : Int) + 20) := by
      refine le_min (Int.natCast_nonneg _) ?_
      omega
    have hble : (min (t.length : Int)
        (v.position + (v.text.length : Int) + 20)).toNat ≤ t.length := by
      rw [Int.toNat_le]
      exact le_trans (min_le_left _ _) (by omega)
    unfold pySlice specContextWindow
    rw [pyIndex_nonneg _ _ ha0, pyIndex_nonneg _ _ hb0, Nat.min_eq_left hble]
    rcases Nat.le_total (max 0 (v.position - 20)).toNat t.length with hle | hge
    · rw [Nat.min_eq_left hle]
    · rw [Nat.min_eq_right hge]
      have h1 : (t.take (min (t.length : Int)
          (v.position + (v.text.length : Int) + 20)).toNat).length ≤ t.length := by
        rw [List.length_take]
        omega
      rw [List.drop_eq_nil_of_le h1, List.drop_eq_nil_of_le (le_trans h1 hge)]

/-- Witness for C5 at a concrete report. -/
theorem C5_context_window_witness :
    (wNegViolation ∈ [wNegViolation] ∧ (-1 : Int) ≤ wNegViolation.position) ∧
    (detailOf wText wNegViolation ∈
        (generateReport [wNegViolation] wText).violations ∧
      (detailOf wText wNegViolation).context =
        specContextWindow wText wNegViolation.position wNegViolation.text.length) :=
  ⟨⟨by decide, by decide⟩,
    C5_context_window [wNegViolation] wText wNegViolation (by decide) (by decide)⟩

/-- Counterexample to C5 as stated: for a violation whose position is `-1`
the report still computes a non-empty context by slicing
(`original_text[0 : len(matched_text) + 19]`), rather than leaving the
context empty or omitted. -/
theorem C5_context_negative_position_cex :
    wNegViolation.position = -1 ∧
    (generateReport [wNegViolation] wText).violations.map ReportDetail.context =
      [wText.take 21] ∧
    wText.take 21 ≠ [] :=
  ⟨by decide, by decide, by decide⟩

/-- C4 (amended): the add operation validates nothing — for every rule,
whether or not its pattern compiles, it assigns the fresh id, persists the
row as given, and (when the stored ids are below the id counter, an
invariant `add` preserves) the new id is unique. -/
theorem C4_add_always_persists (db : PatternDatabase) (pattern : String)
    (vt : ViolationType) (sev : SeverityLevel) (lb sg ds ct : String)
    (hids : ∀ r ∈ db.rows, r.id < db.nextId) :
    (addCustomPattern db pattern vt sev lb sg ds ct).1 = db.nextId ∧
    (addCustomPattern db pattern vt sev lb sg ds ct).2.rows =
      db.rows ++ [addedRow db pattern vt sev lb sg ds ct] ∧
    (∀ r ∈ db.rows, r.id ≠ (addCustomPattern db pattern vt sev lb sg ds ct).1) ∧
    (∀ r ∈ (addCustomPattern db pattern vt sev lb sg ds ct).2.rows,
      r.id < (addCustomPattern db pattern vt sev lb sg ds ct).2.nextId) := by
  refine ⟨rfl, rfl, ?_, ?_⟩
  · intro r hr
    have := hids r hr
    show r.id ≠ db.nextId
    omega
  · intro r hr
    have hr' : r ∈ db.rows ++ [addedRow db pattern vt sev lb sg ds ct] := hr
    show r.id < db.nextId + 1
    rcases List.mem_append.mp hr' with hm | hm
    · have := hids r hm
      omega
    · rw [List.mem_singleton] at hm
      rw [hm]
      show db.nextId < db.nextId + 1
      omega

/-- Witness for C4's amended statement at the empty store and the
non-compiling pattern `"("`. -/
theorem C4_add_always_persists_witness :
    (∀ r ∈ emptyPatternDb.rows, r.id < emptyPatternDb.nextId) ∧
    (addCustomPattern emptyPatternDb "(" .MEDICAL_CLAIM .HIGH "" "" "" "사용자정의").1 =
      emptyPatternDb.nextId :=
  ⟨by decide,
    (C4_add_always_persists emptyPatternDb "(" .MEDICAL_CLAIM .HIGH "" "" "" "사용자정의"
      (by decide)).1⟩

/-- Counterexample to C4 as stated: `"("` does not compile as a regular
expression — the separate `validate_pattern` operation itself rejects it —
yet the add operation persists it without raising any validation error. -/
theorem C4_add_rejects_nothing_cex :
    regexCompiles "(" = false ∧
    validatePattern "(" = false ∧
    (addCustomPattern emptyPatternDb "(" .MEDICAL_CLAIM .HIGH "" "" ""
        "사용자정의").2.rows.map DBRow.pattern = ["("] :=
  ⟨by decide, by decide, by decide⟩

/-- C6 (code bug): `get_active_patterns` never returns the ordered rule
list the claim describes.  `_row_to_pattern_rule` calls `row.get` on a
`sqlite3.Row`, which has no such method, so whenever the query matches at
least one row the conversion raises `AttributeError` (modelled as `none`)
instead of producing a list — only the empty result set survives. -/
theorem C6_list_active_raises (db : PatternDatabase) (vtq : Option ViolationType)
    (h : db.rows.filter (activeFilter vtq) ≠ []) :
    getActivePatterns db vtq = none := by
  unfold getActivePatterns
  cases hfetch : fetchActiveRows db vtq with
  | nil =>
    exfalso
    apply h
    have hperm := insSort_perm rowLe (db.rows.filter (activeFilter vtq))
    rw [show fetchActiveRows db vtq =
      insSort rowLe (db.rows.filter (activeFilter vtq)) from rfl] at hfetch
    rw [hfetch] at hperm
    exact hperm.symm.eq_nil
  | cons r rs => rfl

/-- Witness for C6's failing input: a store with a High rule (id 1) and a
Medium rule (id 2) in the same category makes `list_active` raise. -/
theorem C6_list_active_raises_witness :
    (wPatternDb.rows.filter (activeFilter none) ≠ []) ∧
    getActivePatterns wPatternDb none = none :=
  ⟨by decide, C6_list_active_raises wPatternDb none (by decide)⟩

/-- C7 (code bug): the claimed round trip never takes place, because
`backup_to_json` fails for every store holding at least one rule:
`get_all_patterns` raises the `sqlite3.Row` `.get` `AttributeError` inside
the method's `try`, which is caught, and the method returns `False` having
written nothing (`none`). -/
theorem C7_backup_fails_on_any_rule (db : PatternDatabase) (h : db.rows ≠ []) :
    backupToJson db = none := by
  unfold backupToJson getAllPatterns
  cases hfetch : insSort rowLe db.rows with
  | nil =>
    exfalso
    apply h
    have hperm := insSort_perm rowLe db.rows
    rw [hfetch] at hperm
    exact hperm.symm.eq_nil
  | cons r rs => rfl

/-- Witness for C7's failing input: the two-rule store has no backup. -/
theorem C7_backup_fails_on_any_rule_witness :
    wPatternDb.rows ≠ [] ∧ backupToJson wPatternDb = none :=
  ⟨by decide, C7_backup_fails_on_any_rule wPatternDb (by decide)⟩

/-- C8: with the persistence backend unreachable at initialization, the
checker still exposes the non-empty built-in catalog as its current
ruleset, and every subsequent add call in this degraded mode reports
failure (`False`, the add API's failure signal, standing for the spec's
`UnsupportedOperationError`) and leaves the state untouched instead of
silently succeeding. -/
theorem C8_degraded_mode :
    (initChecker true .failed).violation_patterns = hardcodedPatterns ∧
    hardcodedPatterns ≠ [] ∧
    (initChecker true .failed).use_database = false ∧
    (∀ pattern vt sev lb sg ds,
      checkerAddCustomPattern (initChecker true .failed) pattern vt sev lb sg ds =
        (false, initChecker true .failed)) := by
  refine ⟨rfl, by decide, rfl, ?_⟩
  intro pattern vt sev lb sg ds
  rfl

end Dayoungmon
